import Mathlib

/-!
Verification of the SAT practice test application (`satprepapp.py`).

The test session engine, the question bank loader, the session persistence
layer and the scoring/analytics engine of the source are embedded as pure
Lean functions.  Widget construction and label rendering have no effect on
the session state and are not modelled; the currently displayed screen of
the `QStackedWidget` is tracked explicitly, because the state machine
(menu, running section, break, results review) is observed through
`setCurrentWidget` calls.

Modelling conventions:

* Python dicts are association lists; `plookup` and `pset` mirror
  `d.get(k)` and `d[k] = v` (replace the existing binding, otherwise
  append a new one).
* Keys of the `user_answers` dicts can be Python ints (as written by
  `save_answer`) or strings (as produced by a JSON round trip:
  `json.dump` serialises int dict keys as strings).  `PyKey` keeps the
  two apart, exactly as Python's dict does.
* `random.sample` draws `k` items without replacement.  It is modelled by
  `pySample`, which consumes an explicit oracle of choice indices `sel`
  (the randomness) and removes each chosen element before the next draw.
* The `test_state` fields `start_time`, `elapsed` and `current_module`
  are written but never read anywhere in the program, and they survive a
  JSON round trip unchanged; they are omitted from the model.
* File writes have no effect on the in-memory state.  `save_progress` is
  modelled by the snapshot value it serialises (including the JSON key
  conversion applied by `json.dump`), `load_progress` by the state it
  restores from such a snapshot.  The `setdefault` calls in
  `load_progress` are no-ops on snapshots produced by `save_progress`,
  which always contains every key.
* Timer ticks (`update_timer`) and submissions take the user's reply to
  the `QMessageBox.question` confirmation dialog as an explicit `Reply`
  argument, because `submit_section` always shows that dialog.
* `QMessageBox.information`/`critical` popups only display text and are
  not modelled.
-/

namespace SATPrep

/-- The two test sections (the strings `"RW"` and `"MATH"` in the source). -/
inductive Sec
  | RW
  | MATH
  deriving DecidableEq

/-- The screens of the `QStackedWidget` (menu, test, break, review screens).
The analytics screen is a read-only view and is not needed here. -/
inductive Screen
  | menu
  | test
  | breakScr
  | review
  deriving DecidableEq

/-- The user's reply to a `QMessageBox.question` yes/no dialog. -/
inductive Reply
  | yes
  | no
  deriving DecidableEq

/-- A Python dict key as it occurs in `user_answers`: an int while the
session is live (`save_answer` indexes by `current_index`), a string after
a JSON round trip (`json.dump` writes int keys as strings). -/
inductive PyKey
  | intKey (n : Nat)
  | strKey (s : String)
  deriving DecidableEq

/-- A question bank entry: a JSON object whose keys may each be missing.
`load_questions` requires `id`, `question`, `options` and `answer`;
`category` defaults to `"Uncategorized"` where it is read. -/
structure Question where
  id : Option String
  question : Option String
  options : Option (List String)
  answer : Option String
  category : Option String
  deriving DecidableEq

/-- Validation used by `load_questions`:
`all(key in q for key in ['id', 'question', 'options', 'answer'])`. -/
def isValid (q : Question) : Bool :=
  q.id.isSome && q.question.isSome && q.options.isSome && q.answer.isSome

/-- The `self.test_state` dict.  `test_phase` keeps the source's string
values (`"RW"`, `"MATH"`, `"BREAK"`, `"MENU"`, or `None`). -/
structure TestState where
  current_section : Option Sec
  rw_index : Nat
  math_index : Nat
  user_answers_rw : List (PyKey × String)
  user_answers_math : List (PyKey × String)
  test_phase : Option String
  deriving DecidableEq

/-- The mutable application state the claims are about: `self.test_state`,
`self.questions` (the sampled active set), `self.remaining_seconds`, the
`QTimer` activity flag (`timer.start(1000)` / `timer.stop()`), and the
current `QStackedWidget` page. -/
structure AppState where
  test_state : TestState
  questions : List Question
  remaining_seconds : Int
  timer_active : Bool
  screen : Screen
  deriving DecidableEq

/-- What `save_progress` writes to `progress.json`:
`{"test_state": ..., "questions": ..., "remaining_seconds": ...}`. -/
structure Snapshot where
  test_state : TestState
  questions : List Question
  remaining_seconds : Int
  deriving DecidableEq

/-- The configuration values read from `config.json` that the engine uses:
`total_questions`, `default_time_limits` (minutes) and
`break_duration_minutes`. -/
structure Config where
  total_rw : Nat
  total_math : Nat
  limit_rw : Nat
  limit_math : Nat
  break_minutes : Nat
  deriving DecidableEq

/-- A `{'correct': int, 'total': int}` score record as built by
`show_results`. -/
structure Score where
  correct : Nat
  total : Nat
  deriving DecidableEq

/-- The persisted analytics record (`self.analytics`).  Averages and bests
are percentages; `weak_rw`/`weak_math` are the per-category incorrect
counters of `weakest_categories`.  The append-only `progress_over_time`
history is not referenced by any claim and is omitted. -/
structure Analytics where
  tests_taken : Nat
  avg_rw : ℚ
  avg_math : ℚ
  best_rw : ℚ
  best_math : ℚ
  weak_rw : List (String × Nat)
  weak_math : List (String × Nat)
  deriving DecidableEq

/-- The default analytics record created by `load_analytics` when
`analytics.json` is absent. -/
def analytics0 : Analytics :=
  { tests_taken := 0, avg_rw := 0, avg_math := 0, best_rw := 0, best_math := 0,
    weak_rw := [], weak_math := [] }

/-- Python `d.get(k)` on a dict modelled as an association list. -/
def plookup {α β : Type} [DecidableEq α] : List (α × β) → α → Option β
  | [], _ => none
  | p :: rest, k => if p.1 = k then some p.2 else plookup rest k

/-- Python `d[k] = v`: replace the binding of `k` if present, otherwise
append it. -/
def pset {α β : Type} [DecidableEq α] : List (α × β) → α → β → List (α × β)
  | [], k, v => [(k, v)]
  | p :: rest, k, v => if p.1 = k then (k, v) :: rest else p :: pset rest k v

/-- `self.analytics['weakest_categories'][section].get(category, 0)`. -/
def wget (m : List (String × Nat)) (c : String) : Nat :=
  (plookup m c).getD 0

/-- The string stored in `test_phase` for a running section. -/
def phaseStr : Sec → String
  | Sec.RW => "RW"
  | Sec.MATH => "MATH"

/-- `self.config["total_questions"][section.lower()]`. -/
def Config.total (cfg : Config) : Sec → Nat
  | Sec.RW => cfg.total_rw
  | Sec.MATH => cfg.total_math

/-- `self.config["default_time_limits"][section.lower()]` (minutes). -/
def Config.timeLimit (cfg : Config) : Sec → Nat
  | Sec.RW => cfg.limit_rw
  | Sec.MATH => cfg.limit_math

/-- `random.sample(l, k)`: draw `k` items without replacement.  The
randomness is an oracle `sel` of raw choice numbers; each draw picks
position `sel.headD 0 % remaining` and removes the chosen element before
recursing, so the result never repeats a position. -/
def pySample {α : Type} : List α → Nat → List Nat → List α
  | _, 0, _ => []
  | [], _ + 1, _ => []
  | a :: as, k + 1, sel =>
      (a :: as).get ⟨sel.headD 0 % (a :: as).length, Nat.mod_lt _ (by simp)⟩ ::
        pySample ((a :: as).eraseIdx (sel.headD 0 % (a :: as).length)) k sel.tail

/-- `load_questions(section, for_analytics)`, given the parsed `questions`
array of the bank file as `pool`.  Drops entries missing any of `id`,
`question`, `options`, `answer`; returns `[]` when nothing valid remains;
returns the whole valid pool for analytics; otherwise samples
`min(len(valid), total_needed)` questions. -/
def load_questions (cfg : Config) (sec : Sec) (pool : List Question)
    (for_analytics : Bool) (sel : List Nat) : List Question :=
  let valid := pool.filter isValid
  if valid.isEmpty then []
  else if for_analytics then valid
  else pySample valid (min valid.length (cfg.total sec)) sel

/-- `current_index`: `rw_index` when the current section is RW, otherwise
`math_index`. -/
def current_index (app : AppState) : Nat :=
  if app.test_state.current_section = some Sec.RW then app.test_state.rw_index
  else app.test_state.math_index

/-- `set_current_index` (the `save_progress` call it makes has no
in-memory effect). -/
def set_current_index (app : AppState) (v : Nat) : AppState :=
  if app.test_state.current_section = some Sec.RW then
    { app with test_state := { app.test_state with rw_index := v } }
  else
    { app with test_state := { app.test_state with math_index := v } }

/-- `prev_question`: step back only when `idx > 0`. -/
def prev_question (app : AppState) : AppState :=
  if current_index app > 0 then set_current_index app (current_index app - 1)
  else app

/-- `next_question`: step forward only when `idx < len(questions) - 1`. -/
def next_question (app : AppState) : AppState :=
  if current_index app < app.questions.length - 1 then
    set_current_index app (current_index app + 1)
  else app

/-- The answers dict of the current section,
`self.test_state["user_answers"][section]`.  (The source would raise a
`KeyError` when `current_section` is `None`; that branch is unreachable
while the test screen is active and is mapped to the MATH dict here only
to keep the function total — every theorem below fixes the section.) -/
def currentAnswers (app : AppState) : List (PyKey × String) :=
  match app.test_state.current_section with
  | some Sec.RW => app.test_state.user_answers_rw
  | _ => app.test_state.user_answers_math

/-- `save_answer`: when a radio button is checked, store
`chr(ord('A') + button_id)` under the current index of the current
section.  The four radio buttons carry the ids 0, 1, 2, 3, hence
`Option (Fin 4)` for the checked button. -/
def save_answer (app : AppState) (btn : Option (Fin 4)) : AppState :=
  match btn with
  | none => app
  | some b =>
    match app.test_state.current_section with
    | none => app
    | some sec =>
      let idx := current_index app
      let ans := (Char.ofNat (65 + b.val)).toString
      match sec with
      | Sec.RW =>
        { app with
          test_state :=
            { app.test_state with
              user_answers_rw :=
                pset app.test_state.user_answers_rw (PyKey.intKey idx) ans } }
      | Sec.MATH =>
        { app with
          test_state :=
            { app.test_state with
              user_answers_math :=
                pset app.test_state.user_answers_math (PyKey.intKey idx) ans } }

/-- `start_break`: phase `"BREAK"`, break timer reset to
`break_duration_minutes * 60`, timer started, break screen shown. -/
def start_break (cfg : Config) (app : AppState) : AppState :=
  { app with
    test_state := { app.test_state with test_phase := some "BREAK" },
    remaining_seconds := (cfg.break_minutes : Int) * 60,
    timer_active := true,
    screen := Screen.breakScr }

/-- The state effects of `show_results`: stop the timer and show the
review screen.  (It also scores against the complete banks and calls
`update_analytics` — modelled separately below — and deletes the progress
file, which has no in-memory effect.) -/
def show_results (app : AppState) : AppState :=
  { app with timer_active := false, screen := Screen.review }

/-- `submit_section`: stop the timer, ask "Are you sure you want to submit
this section?"; on Yes, RW goes to the break and anything else shows the
results; on No, restart the timer and change nothing else. -/
def submit_section (cfg : Config) (app : AppState) (r : Reply) : AppState :=
  let app1 := { app with timer_active := false }
  match r with
  | Reply.yes =>
    if app1.test_state.current_section = some Sec.RW then start_break cfg app1
    else show_results app1
  | Reply.no => { app1 with timer_active := true }

/-- `update_timer` (one tick): at `remaining_seconds <= 0` stop the timer,
show the "Time's up!" popup and call `submit_section` — which asks its
confirmation question, answered by `r`.  Otherwise display the time and
decrement.  (The conditional `save_progress` at the end writes a file and
has no in-memory effect.) -/
def update_timer (cfg : Config) (app : AppState) (r : Reply) : AppState :=
  if app.remaining_seconds ≤ 0 then
    submit_section cfg { app with timer_active := false } r
  else
    { app with remaining_seconds := app.remaining_seconds - 1 }

/-- The index reset done by `start_test_section` for a fresh section. -/
def resetIndex (ts : TestState) : Sec → TestState
  | Sec.RW => { ts with rw_index := 0 }
  | Sec.MATH => { ts with math_index := 0 }

/-- A section's saved question pointer (`rw_index` / `math_index`). -/
def sectionIndex (ts : TestState) : Sec → Nat
  | Sec.RW => ts.rw_index
  | Sec.MATH => ts.math_index

/-- `back_to_menu`: stop the timer, reset `test_state` to the initial
record with phase `"MENU"`, clear the question list, delete the progress
file (no in-memory effect) and show the menu widget. -/
def back_to_menu (app : AppState) : AppState :=
  { app with
    timer_active := false,
    test_state :=
      { current_section := none, rw_index := 0, math_index := 0,
        user_answers_rw := [], user_answers_math := [],
        test_phase := some "MENU" },
    questions := [],
    screen := Screen.menu }

/-- `show_question`: purely a display routine except for its guard — when
the question list is empty or the current index is out of bounds
(`not self.questions or idx >= len(self.questions)`), it shows an error
box and calls `back_to_menu`, resetting the whole session. -/
def show_question (app : AppState) : AppState :=
  if app.questions = [] ∨ app.questions.length ≤ current_index app then
    back_to_menu app
  else app

/-- The common tail of `start_test_section` after its early-return abort
branches: `timer.start(1000)`, the section label (display only),
`show_question()` — whose out-of-bounds guard falls back to
`back_to_menu` — then `setCurrentWidget(test_widget)`; the source sets the
test widget *after* `show_question`, so even the `back_to_menu` path ends
with the test screen showing — and `save_progress()` (no in-memory
effect). -/
def startSectionTail (app : AppState) : AppState :=
  { show_question { app with timer_active := true } with screen := Screen.test }

/-- `start_test_section(section, resume)`.  `loaded` is what
`load_questions(section)` returns where the source calls it.  Fresh start:
assign the loaded bank to `self.questions` (so an empty load leaves an
empty list behind), abort to the menu when it is empty, otherwise reset
the timer to the section limit and the section index to 0.  Resume: keep
the saved questions and remaining time, but when the saved question set is
empty, assign a freshly loaded bank and reset the timer to the default
limit (abort to the menu when even that is empty); the saved section index
is never reset on resume.  All non-abort paths then run
`startSectionTail`, i.e. the trailing `timer.start` / `show_question` /
`setCurrentWidget(test_widget)` / `save_progress` of the source — so a
saved index beyond the question set bounces through `show_question`'s
`back_to_menu` fallback. -/
def start_test_section (cfg : Config) (app : AppState) (sec : Sec)
    (resume : Bool) (loaded : List Question) : AppState :=
  let app0 :=
    { app with
      test_state :=
        { app.test_state with
          current_section := some sec,
          test_phase := some (phaseStr sec) } }
  if !resume then
    let app1 := { app0 with questions := loaded }
    if loaded.isEmpty then
      { app1 with
        screen := Screen.menu,
        test_state := { app1.test_state with test_phase := some "MENU" } }
    else
      startSectionTail
        { app1 with
          remaining_seconds := (cfg.timeLimit sec : Int) * 60,
          test_state := resetIndex app1.test_state sec }
  else
    if app0.questions.isEmpty then
      let app1 := { app0 with questions := loaded }
      if loaded.isEmpty then
        { app1 with
          screen := Screen.menu,
          test_state := { app1.test_state with test_phase := some "MENU" } }
      else
        startSectionTail
          { app1 with remaining_seconds := (cfg.timeLimit sec : Int) * 60 }
    else
      startSectionTail app0

/-- `start_next_section` (the break screen's continue button): stop the
timer, set phase `"MATH"` and start the MATH section fresh. -/
def start_next_section (cfg : Config) (app : AppState)
    (loaded : List Question) : AppState :=
  start_test_section cfg
    { app with
      timer_active := false,
      test_state := { app.test_state with test_phase := some "MATH" } }
    Sec.MATH false loaded

/-- The guard of the weakest-category update in `update_analytics`:
`user_answer is not None and user_answer != correct_answer`, where
`user_answer = user_answers[section].get(i)` and
`correct_answer = q.get('answer')`. -/
def shouldCount (ua : List (PyKey × String)) (i : Nat) (q : Question) : Bool :=
  match plookup ua (PyKey.intKey i) with
  | none => false
  | some u => decide (some u ≠ q.answer)

/-- `q.get('category', 'Uncategorized')`. -/
def questionCategory (q : Question) : String :=
  q.category.getD "Uncategorized"

/-- The `for i, q in enumerate(questions_list)` loop of `update_analytics`
over one section: bump the category counter of every question whose
recorded answer differs from the correct one. -/
def updateWeakFrom (ua : List (PyKey × String)) :
    Nat → List Question → List (String × Nat) → List (String × Nat)
  | _, [], m => m
  | i, q :: qs, m =>
    let m1 :=
      if shouldCount ua i q = true then
        pset m (questionCategory q) (wget m (questionCategory q) + 1)
      else m
    updateWeakFrom ua (i + 1) qs m1

/-- The number of questions in `qs` (enumerated from index `i`) of
category `c` whose recorded answer differs from the correct one.  Used to
characterise `updateWeakFrom`. -/
def countWrong (ua : List (PyKey × String)) :
    Nat → List Question → String → Nat
  | _, [], _ => 0
  | i, q :: qs, c =>
    (if shouldCount ua i q = true ∧ questionCategory q = c then 1 else 0) +
      countWrong ua (i + 1) qs c

/-- `update_analytics(rw_score_data, math_score_data)`.  The complete
(unsampled) banks the source loads with `for_analytics=True` and the
`user_answers` dicts it reads from `self.test_state` are passed in
explicitly.  Percentages are `correct/total*100` when `total > 0`, else 0;
the running average uses the post-increment `tests_taken`.  (The
`progress_over_time` append and the `save_analytics` file write are not
modelled.) -/
def update_analytics (a : Analytics) (rwScore mathScore : Score)
    (rwBank mathBank : List Question)
    (uaRW uaMATH : List (PyKey × String)) : Analytics :=
  let n : Nat := a.tests_taken + 1
  let rwPct : ℚ :=
    if rwScore.total > 0 then ((rwScore.correct : ℚ) / (rwScore.total : ℚ)) * 100 else 0
  let mathPct : ℚ :=
    if mathScore.total > 0 then ((mathScore.correct : ℚ) / (mathScore.total : ℚ)) * 100 else 0
  { tests_taken := n,
    avg_rw := if n > 0 then (a.avg_rw * ((n : ℚ) - 1) + rwPct) / (n : ℚ) else rwPct,
    avg_math := if n > 0 then (a.avg_math * ((n : ℚ) - 1) + mathPct) / (n : ℚ) else mathPct,
    best_rw := max a.best_rw rwPct,
    best_math := max a.best_math mathPct,
    weak_rw := updateWeakFrom uaRW 0 rwBank a.weak_rw,
    weak_math := updateWeakFrom uaMATH 0 mathBank a.weak_math }

/-- `json.dump` writes an int dict key as its decimal string; string keys
are kept. -/
def jsonKeyOf : PyKey → PyKey
  | PyKey.intKey n => PyKey.strKey (toString n)
  | PyKey.strKey s => PyKey.strKey s

/-- The effect of a JSON round trip on a `user_answers` section dict. -/
def jsonAnswers (m : List (PyKey × String)) : List (PyKey × String) :=
  m.map (fun p => (jsonKeyOf p.1, p.2))

/-- The effect of a JSON round trip on `test_state`: every other field is
a string, int or `None` and round-trips unchanged; only the int keys of
the `user_answers` dicts become strings. -/
def jsonState (ts : TestState) : TestState :=
  { ts with user_answers_rw := jsonAnswers ts.user_answers_rw,
            user_answers_math := jsonAnswers ts.user_answers_math }

/-- `save_progress` (without `delete=True`): the snapshot as it sits in
`progress.json` after `json.dump`. -/
def save_progress (app : AppState) : Snapshot :=
  { test_state := jsonState app.test_state,
    questions := app.questions,
    remaining_seconds := app.remaining_seconds }

/-- `load_progress` after the user agrees to resume: install the parsed
snapshot fields into the application state. -/
def load_progress (snap : Snapshot) (app : AppState) : AppState :=
  { app with test_state := snap.test_state,
             questions := snap.questions,
             remaining_seconds := snap.remaining_seconds }

/-! ### Concrete inputs used by witnesses and counterexamples -/

/-- The default configuration written by `load_config`. -/
def cfg0 : Config :=
  { total_rw := 27, total_math := 22, limit_rw := 32, limit_math := 35,
    break_minutes := 10 }

/-- A valid RW question (the first dummy question of the source). -/
def qR1 : Question :=
  { id := some "RW1", question := some "What is the main idea of a text?",
    options := some ["A. The topic", "B. The purpose", "C. The central point", "D. The conclusion"],
    answer := some "C", category := some "Main Idea" }

/-- A valid RW question. -/
def qR2 : Question :=
  { id := some "RW2", question := some "Which word means generous?",
    options := some ["A. Stingy", "B. Altruistic", "C. Selfish", "D. Greedy"],
    answer := some "B", category := some "Vocabulary" }

/-- A valid RW question. -/
def qR3 : Question :=
  { id := some "RW3", question := some "Identify the independent clause.",
    options := some ["A. x", "B. y", "C. z", "D. w"],
    answer := some "C", category := some "Sentence Structure" }

/-- A valid RW question. -/
def qR4 : Question :=
  { id := some "RW4", question := some "Which is a simile?",
    options := some ["A. x", "B. y", "C. z", "D. w"],
    answer := some "B", category := some "Literary Devices" }

/-- A valid RW question. -/
def qR5 : Question :=
  { id := some "RW5", question := some "What is a thesis statement for?",
    options := some ["A. x", "B. y", "C. z", "D. w"],
    answer := some "C", category := some "Essay Structure" }

/-- A malformed entry: no answer. -/
def qBad1 : Question :=
  { id := some "RWX1", question := some "Broken entry", options := some ["A. x"],
    answer := none, category := some "Main Idea" }

/-- A malformed entry: no question text. -/
def qBad2 : Question :=
  { id := some "RWX2", question := none, options := some ["A. x"],
    answer := some "A", category := none }

/-- A malformed entry: no id and no options. -/
def qBad3 : Question :=
  { id := none, question := some "Broken entry", options := none,
    answer := some "A", category := none }

/-- A valid MATH question (the first dummy Math question of the source). -/
def qM1 : Question :=
  { id := some "M1", question := some "If 2x + 5 = 11, what is x?",
    options := some ["A. 2", "B. 3", "C. 4", "D. 5"],
    answer := some "B", category := some "Algebra" }

/-- A bank pool with 5 valid and 3 malformed entries. -/
def poolW : List Question := [qR1, qBad1, qR2, qR3, qBad2, qR4, qBad3, qR5]

/-- A running RW section whose timer has just reached 0. -/
def appRW : AppState :=
  { test_state :=
    { current_section := some Sec.RW, rw_index := 0, math_index := 0,
      user_answers_rw := [], user_answers_math := [], test_phase := some "RW" },
    questions := [qR1, qR2], remaining_seconds := 0, timer_active := true,
    screen := Screen.test }

/-- A break whose timer has just reached 0 (after the RW section was
submitted: `current_section` is still RW, phase is BREAK). -/
def appBreak : AppState :=
  { test_state :=
    { current_section := some Sec.RW, rw_index := 1, math_index := 0,
      user_answers_rw := [(PyKey.intKey 0, "C")], user_answers_math := [],
      test_phase := some "BREAK" },
    questions := [qR1, qR2], remaining_seconds := 0, timer_active := true,
    screen := Screen.breakScr }

/-- An in-progress MATH session with a recorded answer, about to be
persisted. -/
def appC4 : AppState :=
  { test_state :=
    { current_section := some Sec.MATH, rw_index := 2, math_index := 5,
      user_answers_rw := [], user_answers_math := [(PyKey.intKey 0, "B")],
      test_phase := some "MATH" },
    questions := [qM1], remaining_seconds := 900, timer_active := true,
    screen := Screen.test }

/-- A running RW section at question index 1 of a two-question set. -/
def appW5 : AppState :=
  { test_state :=
    { current_section := some Sec.RW, rw_index := 1, math_index := 0,
      user_answers_rw := [], user_answers_math := [], test_phase := some "RW" },
    questions := [qR1, qR2], remaining_seconds := 100, timer_active := true,
    screen := Screen.test }

/-- A running RW section mid-countdown. -/
def appW8 : AppState :=
  { test_state :=
    { current_section := some Sec.RW, rw_index := 0, math_index := 0,
      user_answers_rw := [(PyKey.intKey 0, "C")], user_answers_math := [],
      test_phase := some "RW" },
    questions := [qR1, qR2], remaining_seconds := 300, timer_active := true,
    screen := Screen.test }

/-- A persisted MATH session being resumed whose saved question set is
empty and whose saved index (5) lies beyond the one-question bank the
loader will return. -/
def appW9 : AppState :=
  { test_state :=
    { current_section := some Sec.MATH, rw_index := 3, math_index := 5,
      user_answers_rw := [(PyKey.intKey 0, "B")], user_answers_math := [],
      test_phase := some "MATH" },
    questions := [], remaining_seconds := 42, timer_active := false,
    screen := Screen.menu }

/-- A persisted MATH session being resumed whose saved question set is
empty and whose saved index (0) is within the freshly loaded bank. -/
def appW9b : AppState :=
  { test_state :=
    { current_section := some Sec.MATH, rw_index := 3, math_index := 0,
      user_answers_rw := [(PyKey.intKey 0, "B")], user_answers_math := [],
      test_phase := some "MATH" },
    questions := [], remaining_seconds := 42, timer_active := false,
    screen := Screen.menu }

/-- A running RW section on its first question. -/
def appW10 : AppState :=
  { test_state :=
    { current_section := some Sec.RW, rw_index := 0, math_index := 0,
      user_answers_rw := [], user_answers_math := [(PyKey.strKey "9", "D")],
      test_phase := some "RW" },
    questions := [qR1, qR2], remaining_seconds := 500, timer_active := true,
    screen := Screen.test }

/-! ### Helper lemmas -/

/-- Looking up the key just assigned returns the assigned value. -/
theorem plookup_pset_self {α β : Type} [DecidableEq α]
    (m : List (α × β)) (k : α) (v : β) : plookup (pset m k v) k = some v := by
  induction m with
  | nil => simp [pset, plookup]
  | cons p rest ih =>
    by_cases h : p.1 = k
    · simp [pset, plookup, h]
    · simp [pset, plookup, h, ih]

/-- Assignment does not disturb other keys. -/
theorem plookup_pset_ne {α β : Type} [DecidableEq α]
    (m : List (α × β)) (k k' : α) (v : β) (h : k ≠ k') :
    plookup (pset m k v) k' = plookup m k' := by
  induction m with
  | nil => simp [pset, plookup, h]
  | cons p rest ih =>
    by_cases hp : p.1 = k
    · simp [pset, plookup, hp, h]
    · simp only [pset, if_neg hp]
      by_cases hq : p.1 = k'
      · simp [plookup, hq]
      · simp [plookup, hq, ih]

/-- Counter reads through a counter assignment. -/
theorem wget_pset (m : List (String × Nat)) (k k' : String) (v : Nat) :
    wget (pset m k v) k' = if k' = k then v else wget m k' := by
  by_cases h : k' = k
  · subst h; simp [wget, plookup_pset_self]
  · simp [wget, h, plookup_pset_ne m k k' v (fun hk => h hk.symm)]

/-- The category counters after the `update_analytics` loop over one
section: each counter grows by the number of questions of that category
whose recorded answer differs from the correct one. -/
theorem wget_updateWeakFrom (ua : List (PyKey × String)) (c : String) :
    ∀ (qs : List Question) (i : Nat) (m : List (String × Nat)),
      wget (updateWeakFrom ua i qs m) c = wget m c + countWrong ua i qs c := by
  intro qs
  induction qs with
  | nil => intro i m; simp [updateWeakFrom, countWrong]
  | cons q qs ih =>
    intro i m
    simp only [updateWeakFrom, countWrong]
    rw [ih]
    by_cases hs : shouldCount ua i q = true
    · simp only [hs, if_true, true_and]
      rw [wget_pset]
      by_cases hc : questionCategory q = c
      · simp only [hc, if_pos rfl, if_pos trivial]
        omega
      · have : ¬(c = questionCategory q) := fun h => hc h.symm
        simp only [if_neg this, if_neg hc]
        omega
    · simp only [if_neg hs]
      have : ¬(shouldCount ua i q = true ∧ questionCategory q = c) :=
        fun h => hs h.1
      simp only [if_neg this]
      omega

/-- `pySample` returns `min (length l) k` items. -/
theorem pySample_length {α : Type} (k : Nat) :
    ∀ (l : List α) (sel : List Nat),
      (pySample l k sel).length = min l.length k := by
  induction k with
  | zero => intro l sel; simp [pySample]
  | succ k ih =>
    intro l sel
    cases l with
    | nil => simp [pySample]
    | cons a as =>
      simp only [pySample, List.length_cons]
      rw [ih]
      have hi : sel.headD 0 % (as.length + 1) < (a :: as).length := by
        simp only [List.length_cons]
        exact Nat.mod_lt _ (Nat.succ_pos _)
      rw [List.length_eraseIdx_of_lt hi]
      simp only [List.length_cons]
      omega

/-- Everything `pySample` returns comes from the input list. -/
theorem pySample_mem {α : Type} (k : Nat) :
    ∀ (l : List α) (sel : List Nat) (x : α),
      x ∈ pySample l k sel → x ∈ l := by
  induction k with
  | zero => intro l sel x h; simp [pySample] at h
  | succ k ih =>
    intro l sel x h
    cases l with
    | nil => simp [pySample] at h
    | cons a as =>
      simp only [pySample, List.mem_cons] at h
      rcases h with h | h
      · rw [h]; exact List.get_mem _ _ _
      · exact (List.eraseIdx_sublist _ _).subset (ih _ _ _ h)

/-- Removing the element picked at a position and putting it back in front
permutes the list. -/
theorem get_cons_eraseIdx_perm {α : Type} :
    ∀ (l : List α) (i : Nat) (h : i < l.length),
      List.Perm (l.get ⟨i, h⟩ :: l.eraseIdx i) l := by
  intro l
  induction l with
  | nil => intro i h; simp at h
  | cons a as ih =>
    intro i h
    cases i with
    | zero => simp
    | succ i =>
      simp only [List.get, List.eraseIdx_cons_succ]
      have hi : i < as.length := by simpa using Nat.lt_of_succ_lt_succ h
      exact (List.Perm.swap a _ _).trans (List.Perm.cons a (ih i hi))

/-- When asked for at least the whole list, `pySample` returns a
permutation of it. -/
theorem pySample_perm {α : Type} (k : Nat) :
    ∀ (l : List α) (sel : List Nat), l.length ≤ k →
      List.Perm (pySample l k sel) l := by
  induction k with
  | zero =>
    intro l sel h
    have : l = [] := List.eq_nil_of_length_eq_zero (Nat.le_zero.mp h)
    subst this; simp [pySample]
  | succ k ih =>
    intro l sel h
    cases l with
    | nil => simp [pySample]
    | cons a as =>
      simp only [pySample]
      have hi : sel.headD 0 % (a :: as).length < (a :: as).length :=
        Nat.mod_lt _ (by simp)
      have hlen : ((a :: as).eraseIdx (sel.headD 0 % (a :: as).length)).length ≤ k := by
        rw [List.length_eraseIdx_of_lt hi]
        simp only [List.length_cons] at h ⊢
        omega
      exact (List.Perm.cons _ (ih _ sel.tail hlen)).trans
        (get_cons_eraseIdx_perm _ _ hi)

/-- The index after `set_current_index` is the value just set. -/
theorem current_index_set (app : AppState) (v : Nat) :
    current_index (set_current_index app v) = v := by
  by_cases h : app.test_state.current_section = some Sec.RW <;>
    simp [current_index, set_current_index, h]

/-- `set_current_index` leaves the question set alone. -/
theorem questions_set_current_index (app : AppState) (v : Nat) :
    (set_current_index app v).questions = app.questions := by
  by_cases h : app.test_state.current_section = some Sec.RW <;>
    simp [set_current_index, h]

/-! ### Claim theorems -/

/-- C5: for every state whose current index is in bounds of the active
question set, `prev_question`/`next_question` keep the index within
`[0, len-1]`; `prev_question` at index 0 and `next_question` at the last
index leave the whole state unchanged (no-ops, not errors), and otherwise
the index moves by exactly one in the requested direction. -/
theorem navigate_clamps_in_bounds (app : AppState)
    (h : current_index app < app.questions.length) :
    current_index (prev_question app) < app.questions.length ∧
    current_index (next_question app) < app.questions.length ∧
    (current_index app = 0 → prev_question app = app) ∧
    (current_index app = app.questions.length - 1 → next_question app = app) ∧
    (0 < current_index app →
      current_index (prev_question app) = current_index app - 1) ∧
    (current_index app + 1 < app.questions.length →
      current_index (next_question app) = current_index app + 1) := by
  refine ⟨?_, ?_, ?_, ?_, ?_, ?_⟩
  · by_cases hp : current_index app > 0
    · simp only [prev_question, if_pos hp, current_index_set]
      omega
    · simp only [prev_question, if_neg hp]
      exact h
  · by_cases hn : current_index app < app.questions.length - 1
    · simp only [next_question, if_pos hn, current_index_set]
      omega
    · simp only [next_question, if_neg hn]
      exact h
  · intro h0
    simp [prev_question, h0]
  · intro hl
    have : ¬(current_index app < app.questions.length - 1) := by omega
    simp [next_question, this]
  · intro hp
    simp [prev_question, hp, current_index_set]
  · intro hn
    have : current_index app < app.questions.length - 1 := by omega
    simp [next_question, this, current_index_set]

/-- C5 witness: a concrete in-bounds state on which the theorem applies;
stepping forward from index 1 of a two-question set stays in bounds. -/
theorem navigate_clamps_in_bounds_witness :
    current_index appW5 < appW5.questions.length ∧
    current_index (next_question appW5) < appW5.questions.length :=
  ⟨by decide, (navigate_clamps_in_bounds appW5 (by decide)).2.1⟩

/-- C8: declining the submit confirmation dialog during a running section
leaves the application state unchanged — same phase, same section, same
`remaining_seconds`, and the countdown timer is running again. -/
theorem decline_submit_leaves_state (cfg : Config) (app : AppState)
    (hph : app.test_state.test_phase = some "RW" ∨
           app.test_state.test_phase = some "MATH")
    (ht : app.timer_active = true) :
    submit_section cfg app Reply.no = app := by
  obtain ⟨ts, qs, rs, ta, sc⟩ := app
  simp only at ht
  subst ht
  rfl

/-- C8 witness: declining mid-countdown in a concrete RW section changes
nothing. -/
theorem decline_submit_leaves_state_witness :
    (appW8.test_state.test_phase = some "RW" ∨
      appW8.test_state.test_phase = some "MATH") ∧
    appW8.timer_active = true ∧
    submit_section cfg0 appW8 Reply.no = appW8 :=
  ⟨Or.inl rfl, rfl, decline_submit_leaves_state cfg0 appW8 (Or.inl rfl) rfl⟩

/-- C9 counterexample: resuming the persisted MATH session `appW9` (saved
`math_index` 5, empty saved question set) with a freshly loaded
one-question bank does not leave the engine running on that bank: the
trailing `show_question` finds the index out of bounds and calls
`back_to_menu`, so the session ends with an empty question list, phase
`"MENU"`, no current section and the timer stopped (while the code still
switches to the test widget afterwards).  The fresh bank is discarded, so
the claim's "loads a fresh sampled bank and resets remainingSeconds"
resume guarantee fails at this input. -/
theorem resume_out_of_bounds_resets_to_menu :
    appW9.questions = [] ∧ ([qM1] ≠ ([] : List Question)) ∧
    (start_test_section cfg0 appW9 Sec.MATH true [qM1]).questions = [] ∧
    (start_test_section cfg0 appW9 Sec.MATH true [qM1]).test_state.test_phase =
      some "MENU" ∧
    (start_test_section cfg0 appW9 Sec.MATH true [qM1]).test_state.current_section =
      none ∧
    (start_test_section cfg0 appW9 Sec.MATH true [qM1]).timer_active = false ∧
    (start_test_section cfg0 appW9 Sec.MATH true [qM1]).screen = Screen.test := by
  decide

/-- C9 (amended): resuming a running section whose saved question set is
empty loads a fresh sampled bank and resets the timer to the section's
default limit (not the saved remaining time), landing on the test screen
in the section's phase with the timer running — provided the saved
section index is within the bounds of the freshly loaded bank; a saved
index beyond the fresh bank instead bounces through `show_question`'s
`back_to_menu` fallback, resetting the session to the menu state. -/
theorem resume_empty_inbounds_resamples (cfg : Config) (app : AppState)
    (sec : Sec) (loaded : List Question)
    (h1 : app.questions = []) (h2 : loaded ≠ [])
    (h3 : sectionIndex app.test_state sec < loaded.length) :
    (start_test_section cfg app sec true loaded).questions = loaded ∧
    (start_test_section cfg app sec true loaded).remaining_seconds =
      (cfg.timeLimit sec : Int) * 60 ∧
    (start_test_section cfg app sec true loaded).screen = Screen.test ∧
    (start_test_section cfg app sec true loaded).test_state.test_phase =
      some (phaseStr sec) ∧
    (start_test_section cfg app sec true loaded).timer_active = true := by
  cases loaded with
  | nil => exact absurd rfl h2
  | cons q qs =>
    cases sec with
    | RW =>
      have hg : ¬(qs.length + 1 ≤ app.test_state.rw_index) := by
        simp only [sectionIndex, List.length_cons] at h3
        omega
      refine ⟨?_, ?_, ?_, ?_, ?_⟩ <;>
        simp [start_test_section, startSectionTail, show_question,
          current_index, h1, hg]
    | MATH =>
      have hg : ¬(qs.length + 1 ≤ app.test_state.math_index) := by
        simp only [sectionIndex, List.length_cons] at h3
        omega
      refine ⟨?_, ?_, ?_, ?_, ?_⟩ <;>
        simp [start_test_section, startSectionTail, show_question,
          current_index, h1, hg]

/-- C9 witness: a concrete resumed MATH session with an empty saved set
and the saved index within the fresh bank gets the freshly loaded bank
and the default MATH time limit. -/
theorem resume_empty_inbounds_resamples_witness :
    appW9b.questions = [] ∧ ([qM1] ≠ ([] : List Question)) ∧
    sectionIndex appW9b.test_state Sec.MATH < ([qM1] : List Question).length ∧
    (start_test_section cfg0 appW9b Sec.MATH true [qM1]).questions = [qM1] ∧
    (start_test_section cfg0 appW9b Sec.MATH true [qM1]).remaining_seconds =
      (cfg0.timeLimit Sec.MATH : Int) * 60 :=
  ⟨rfl, by decide, by decide,
    (resume_empty_inbounds_resamples cfg0 appW9b Sec.MATH [qM1] rfl (by decide)
      (by decide)).1,
    (resume_empty_inbounds_resamples cfg0 appW9b Sec.MATH [qM1] rfl (by decide)
      (by decide)).2.1⟩

/-- C10: `save_answer` with a checked button stores exactly
`chr(ord('A') + button_id)` with the button id in `[0, 4)` — hence one of
`"A"`, `"B"`, `"C"`, `"D"` — under the current (in-bounds) question index
of the active section, and no other binding of the answers dict changes;
the question set is untouched. -/
theorem save_answer_records_letter (app : AppState) (b : Fin 4) (sec : Sec)
    (hsec : app.test_state.current_section = some sec)
    (hidx : current_index app < app.questions.length) :
    plookup (currentAnswers (save_answer app (some b)))
        (PyKey.intKey (current_index app)) =
      some ((Char.ofNat (65 + b.val)).toString) ∧
    (Char.ofNat (65 + b.val)).toString ∈ ["A", "B", "C", "D"] ∧
    (∀ k, k ≠ PyKey.intKey (current_index app) →
      plookup (currentAnswers (save_answer app (some b))) k =
        plookup (currentAnswers app) k) ∧
    (save_answer app (some b)).questions = app.questions := by
  have hmem : (Char.ofNat (65 + b.val)).toString ∈ ["A", "B", "C", "D"] := by
    fin_cases b <;> decide
  cases sec with
  | RW =>
    refine ⟨?_, hmem, ?_, ?_⟩
    · simp [save_answer, currentAnswers, hsec, plookup_pset_self]
    · intro k hk
      simp only [save_answer, currentAnswers, hsec]
      exact plookup_pset_ne _ _ _ _ (fun h => hk h.symm)
    · simp [save_answer, hsec]
  | MATH =>
    refine ⟨?_, hmem, ?_, ?_⟩
    · simp [save_answer, currentAnswers, hsec, plookup_pset_self]
    · intro k hk
      simp only [save_answer, currentAnswers, hsec]
      exact plookup_pset_ne _ _ _ _ (fun h => hk h.symm)
    · simp [save_answer, hsec]

/-- C10 witness: checking button 2 on the first question of a concrete RW
session records the single letter "C" at integer key 0. -/
theorem save_answer_records_letter_witness :
    appW10.test_state.current_section = some Sec.RW ∧
    current_index appW10 < appW10.questions.length ∧
    plookup (currentAnswers (save_answer appW10 (some 2)))
        (PyKey.intKey (current_index appW10)) =
      some ((Char.ofNat (65 + (2 : Fin 4).val)).toString) :=
  ⟨rfl, by decide,
    (save_answer_records_letter appW10 2 Sec.RW rfl (by decide)).1⟩

/-- C1 counterexample: in a running RW section whose timer has reached 0,
the tick routes through `submit_section`, which shows its confirmation
dialog; declining it leaves the session in the same running RW section
(phase "RW", test screen, timer restarted at 0) — not in the Break state a
confirmed submit produces.  So timer expiry does not auto-submit without a
confirmation prompt. -/
theorem timer_expiry_decline_remains_running :
    (update_timer cfg0 appRW Reply.no).test_state.test_phase = some "RW" ∧
    (update_timer cfg0 appRW Reply.no).screen = Screen.test ∧
    (update_timer cfg0 appRW Reply.no).remaining_seconds = 0 ∧
    (update_timer cfg0 appRW Reply.no).timer_active = true ∧
    update_timer cfg0 appRW Reply.no ≠
      start_break cfg0 { appRW with timer_active := false } := by
  decide

/-- C1 (amended): when `tick()` reaches `remaining_seconds <= 0` in a
running section, the engine stops the timer and invokes the very same
`submit_section` handler as a manual submit, confirmation dialog included:
with the same reply the tick and a manual submit produce identical states;
on confirmation RW transitions to Break and MATH to Results, and on
decline the session stays in the same running section with the countdown
restarted. -/
theorem timer_expiry_runs_submit_handler (cfg : Config) (app : AppState)
    (r : Reply) (hrem : app.remaining_seconds ≤ 0)
    (hph : app.test_state.test_phase = some "RW" ∨
           app.test_state.test_phase = some "MATH") :
    update_timer cfg app r = submit_section cfg app r ∧
    (app.test_state.current_section = some Sec.RW →
      update_timer cfg app Reply.yes =
        start_break cfg { app with timer_active := false }) ∧
    (app.test_state.current_section ≠ some Sec.RW →
      (update_timer cfg app Reply.yes).screen = Screen.review) ∧
    update_timer cfg app Reply.no = { app with timer_active := true } := by
  obtain ⟨ts, qs, rs, ta, sc⟩ := app
  refine ⟨?_, ?_, ?_, ?_⟩
  · simp only [update_timer, if_pos hrem]
    cases r <;> rfl
  · intro h
    simp only at h
    simp [update_timer, if_pos hrem, submit_section, h]
  · intro h
    simp only at h
    simp [update_timer, if_pos hrem, submit_section, if_neg h, show_results]
  · simp [update_timer, if_pos hrem, submit_section]

/-- C1 witness: on the concrete expired RW section, a tick with a
confirmed dialog performs exactly the Break transition of a confirmed
manual submit. -/
theorem timer_expiry_runs_submit_handler_witness :
    appRW.remaining_seconds ≤ 0 ∧
    (appRW.test_state.test_phase = some "RW" ∨
      appRW.test_state.test_phase = some "MATH") ∧
    update_timer cfg0 appRW Reply.yes =
      start_break cfg0 { appRW with timer_active := false } :=
  ⟨by decide, Or.inl rfl,
    (timer_expiry_runs_submit_handler cfg0 appRW Reply.yes (by decide)
      (Or.inl rfl)).2.1 rfl⟩

/-- C2: when the break timer expires, `update_timer` calls
`submit_section`, whose confirmation dialog — once confirmed — finds
`current_section` still equal to RW and therefore calls `start_break`
again: the session re-enters Break with a fresh full break timer (600
seconds for the default 10-minute break) instead of auto-advancing to the
MATH section; declining keeps the phase BREAK as well.  Only the user's
explicit continue button (`start_next_section`) reaches MATH. -/
theorem break_expiry_restarts_break :
    (update_timer cfg0 appBreak Reply.yes).test_state.test_phase = some "BREAK" ∧
    (update_timer cfg0 appBreak Reply.yes).screen = Screen.breakScr ∧
    (update_timer cfg0 appBreak Reply.yes).remaining_seconds = 600 ∧
    (update_timer cfg0 appBreak Reply.yes).test_state.current_section = some Sec.RW ∧
    (update_timer cfg0 appBreak Reply.no).test_state.test_phase = some "BREAK" ∧
    (start_next_section cfg0 appBreak [qM1]).test_state.test_phase = some "MATH" ∧
    (start_next_section cfg0 appBreak [qM1]).test_state.current_section = some Sec.MATH ∧
    (start_next_section cfg0 appBreak [qM1]).remaining_seconds =
      (cfg0.timeLimit Sec.MATH : Int) * 60 ∧
    (start_next_section cfg0 appBreak [qM1]).test_state.math_index = 0 ∧
    (start_next_section cfg0 appBreak [qM1]).questions = [qM1] := by
  refine ⟨rfl, rfl, by decide, rfl, rfl, rfl, rfl, by decide, rfl, rfl⟩

/-- C4: persisting and reloading an in-progress MATH session is not an
identity: `json.dump` writes the int keys of `user_answers` as strings,
so the reloaded state differs from the saved one — the answer recorded
under int key 0 is gone (every `get(i)` with an int index now misses) and
sits under the string key "0" instead. -/
theorem progress_roundtrip_loses_int_keys :
    (load_progress (save_progress appC4) appC4).test_state ≠ appC4.test_state ∧
    plookup (load_progress (save_progress appC4) appC4).test_state.user_answers_math
      (PyKey.intKey 0) = none ∧
    plookup (load_progress (save_progress appC4) appC4).test_state.user_answers_math
      (PyKey.strKey "0") = some "B" ∧
    (load_progress (save_progress appC4) appC4).questions = appC4.questions ∧
    (load_progress (save_progress appC4) appC4).remaining_seconds =
      appC4.remaining_seconds := by
  decide

/-- C3 counterexample: a question of category "Main Idea" with no recorded
answer at all does not increment the category counter — `update_analytics`
guards with `user_answer is not None`, so after the update the counter is
still 0, not the old value plus 1 the claim demands. -/
theorem unanswered_question_not_counted :
    wget (update_analytics analytics0 (Score.mk 0 1) (Score.mk 0 0)
        [qR1] [] [] []).weak_rw "Main Idea" = 0 ∧
    plookup ([] : List (PyKey × String)) (PyKey.intKey 0) = none ∧
    wget (update_analytics analytics0 (Score.mk 0 1) (Score.mk 0 0)
        [qR1] [] [] []).weak_rw "Main Idea" ≠
      wget analytics0.weak_rw "Main Idea" + 1 := by
  refine ⟨rfl, rfl, by decide⟩

/-- C3 (amended): for every category, `update_analytics` grows
`weakest_categories[section][category]` by exactly the number of questions
of that category in the complete bank whose *recorded* answer differs from
the correct one; questions with no recorded answer are skipped by the
`user_answer is not None` guard and contribute nothing. -/
theorem update_analytics_weak_counts (a : Analytics) (rs ms : Score)
    (rwBank mathBank : List Question) (uaRW uaMATH : List (PyKey × String))
    (c : String) :
    wget (update_analytics a rs ms rwBank mathBank uaRW uaMATH).weak_rw c =
      wget a.weak_rw c + countWrong uaRW 0 rwBank c ∧
    wget (update_analytics a rs ms rwBank mathBank uaRW uaMATH).weak_math c =
      wget a.weak_math c + countWrong uaMATH 0 mathBank c := by
  constructor
  · simp only [update_analytics]
    exact wget_updateWeakFrom uaRW c rwBank 0 a.weak_rw
  · simp only [update_analytics]
    exact wget_updateWeakFrom uaMATH c mathBank 0 a.weak_math

/-- C6: `update_analytics` computes the new per-section average as
`(oldAvg * (n - 1) + newPct) / n` with `n` the post-increment
`tests_taken` and `newPct = correct/total*100` when `total > 0` (else 0);
in particular a first test scoring 80% followed by a second scoring 60%
in the same section yields an average of exactly 70. -/
theorem update_analytics_running_average :
    (∀ (a : Analytics) (rs ms : Score) (rwBank mathBank : List Question)
        (uaRW uaMATH : List (PyKey × String)),
      (update_analytics a rs ms rwBank mathBank uaRW uaMATH).tests_taken =
        a.tests_taken + 1 ∧
      (update_analytics a rs ms rwBank mathBank uaRW uaMATH).avg_rw =
        (a.avg_rw * (((a.tests_taken + 1 : Nat) : ℚ) - 1) +
          (if rs.total > 0 then ((rs.correct : ℚ) / (rs.total : ℚ)) * 100 else 0)) /
          ((a.tests_taken + 1 : Nat) : ℚ)) ∧
    (update_analytics
        (update_analytics analytics0 (Score.mk 8 10) (Score.mk 0 0) [] [] [] [])
        (Score.mk 6 10) (Score.mk 0 0) [] [] [] []).avg_rw = 70 := by
  constructor
  · intro a rs ms rwBank mathBank uaRW uaMATH
    constructor
    · rfl
    · simp only [update_analytics, Nat.succ_pos, if_pos]
  · simp only [update_analytics, analytics0]
    norm_num

/-- C7: on a pool that mixes valid and malformed entries, the sampled
loader first drops every entry missing one of `id`, `question`, `options`,
`answer`, then returns exactly `min(#valid, n)` questions, all of them
valid entries of the pool; when `n` is at least the number of valid
entries (e.g. 5 valid under `Sampled(27)`), it returns precisely all the
valid questions (in some order) and never a malformed one. -/
theorem sampled_load_valid_only (cfg : Config) (sec : Sec)
    (pool : List Question) (sel : List Nat)
    (h : pool.filter isValid ≠ []) :
    (load_questions cfg sec pool false sel).length =
      min (pool.filter isValid).length (cfg.total sec) ∧
    (∀ q ∈ load_questions cfg sec pool false sel,
      isValid q = true ∧ q ∈ pool) ∧
    ((pool.filter isValid).length ≤ cfg.total sec →
      List.Perm (load_questions cfg sec pool false sel)
        (pool.filter isValid)) := by
  have hne : (pool.filter isValid).isEmpty = false := by
    cases hp : pool.filter isValid with
    | nil => exact absurd hp h
    | cons q qs => rfl
  refine ⟨?_, ?_, ?_⟩
  · simp only [load_questions, hne, Bool.false_eq_true, if_false]
    rw [pySample_length]
    omega
  · intro q hq
    simp only [load_questions, hne, Bool.false_eq_true, if_false] at hq
    have hv : q ∈ pool.filter isValid := pySample_mem _ _ _ _ hq
    have := List.mem_filter.mp hv
    exact ⟨this.2, this.1⟩
  · intro hk
    simp only [load_questions, hne, Bool.false_eq_true, if_false]
    exact pySample_perm _ _ _ (by omega)

/-- C7 witness: the concrete pool with 5 valid and 3 malformed entries
under the default RW target of 27 yields a permutation of exactly the 5
valid questions. -/
theorem sampled_load_valid_only_witness :
    poolW.filter isValid ≠ [] ∧
    List.Perm (load_questions cfg0 Sec.RW poolW false [])
      (poolW.filter isValid) ∧
    (load_questions cfg0 Sec.RW poolW false []).length = 5 :=
  ⟨by decide,
    (sampled_load_valid_only cfg0 Sec.RW poolW [] (by decide)).2.2 (by decide),
    by
      rw [(sampled_load_valid_only cfg0 Sec.RW poolW [] (by decide)).1]
      decide⟩

end SATPrep
